import Mathlib

/-!
# Verification of the gle-vision-chat core

A shallow embedding of the core of the `gle-vision-chat` repository:

* the Batch Analysis Service (`src/services/openai/analyzeImages.ts`),
* the HTTP validation boundary (`src/app/api/batch/route.ts`),
* the client-side conversation reconciliation (the `Page` component:
  composer state, transcript append, pending-message resolution).

The outbound model call is the only effectful suspension point; it is
embedded as an explicit `Except` parameter carrying either the model's
structured output or the thrown JavaScript value.
-/

namespace VisionChat

/-- A JavaScript value thrown by the model-calling collaborator, as far as
the code can observe it through the `isErrorWithMessage` guard
(`src/lib/errors.ts`): either a non-null object exposing a string
`message` property, or any other value. -/
inductive JsError where
  | withMessage (message : String) : JsError
  | other : JsError
deriving DecidableEq, Repr

/-- `isErrorWithMessage` (`src/lib/errors.ts`): true iff the value is a
non-null object with a string `message` property. -/
def isErrorWithMessage : JsError → Bool
  | .withMessage _ => true
  | .other => false

/-- The `message` property read after the `isErrorWithMessage` guard has
succeeded. (On the `other` branch the code never reads it; the value
returned here for `other` is irrelevant junk.) -/
def JsError.getMessage : JsError → String
  | .withMessage m => m
  | .other => ""

/-- JavaScript's `String.prototype.trim()`: strip whitespace from both
ends. (Defined over the character list so that concrete instances reduce
inside the kernel; Lean's own `String.trim` is well-founded-recursive and
does not.) -/
def jsTrim (s : String) : String :=
  ⟨((s.data.dropWhile Char.isWhitespace).reverse.dropWhile Char.isWhitespace).reverse⟩

namespace Service

/-- One entry of the model's structured output
(`AIImageAnalysisResponseItemSchema`): `{index: number, text: string}`.
The `index` is an untrusted JS number; only integer values can ever
compare equal to an input index, so it is embedded as `Int`. -/
structure AIImageAnalysisResponseItem where
  index : Int
  text : String
deriving DecidableEq, Repr

/-- `ImageAnalysisResponseItem` (`ImageAnalysisResponseItemSchema`):
discriminated union on `ok` — `{index, ok: true, text}` or
`{index, ok: false, error}`. The service only ever constructs items whose
index is an input index, hence `Nat`. -/
inductive ImageAnalysisResponseItem where
  | success (index : Nat) (text : String) : ImageAnalysisResponseItem
  | failure (index : Nat) (error : String) : ImageAnalysisResponseItem
deriving DecidableEq, Repr

/-- The `index` field of a per-image result. -/
def ImageAnalysisResponseItem.index : ImageAnalysisResponseItem → Nat
  | .success i _ => i
  | .failure i _ => i

/-- The Batch Analysis Service `analyzeImages`
(`src/services/openai/analyzeImages.ts`). The `generateObject` call is
embedded as the `modelCall` parameter: `.ok` carries the schema-validated
`object.results`, `.error` the thrown value caught by the `catch` block.

* success path: `images.map((_, index) => ...)` reconciles each input
  index against `object.results.find(r => r.index === index)`;
* catch path: derives a message via `isErrorWithMessage` and maps every
  input index to an error item. -/
def analyzeImages (question : String) (images : List String)
    (modelCall : Except JsError (List AIImageAnalysisResponseItem)) :
    List ImageAnalysisResponseItem :=
  match modelCall with
  | .ok objectResults =>
      images.mapIdx fun index _ =>
        match objectResults.find? (fun r => r.index == (index : Int)) with
        | some analysis => .success index analysis.text
        | none => .failure index "No response received for this image."
  | .error error =>
      let message :=
        if isErrorWithMessage error then error.getMessage
        else "Failed to analyze images. Please try again."
      images.mapIdx fun index _ => .failure index message

/-- The property "the entry's `index` field lies in `[0, n)`", used to
state which model entries can ever be matched by the reconciliation. -/
def entryIndexInRange (n : Nat) (r : AIImageAnalysisResponseItem) : Bool :=
  decide (0 ≤ r.index) && decide (r.index < (n : Int))

end Service

namespace BatchRoute

/-- A JSON response produced by the batch route: either
`NextResponse.json({results}, {status: 200})` or
`NextResponse.json({error}, {status})`. -/
inductive PostResponse where
  | results (status : Nat) (items : List Service.ImageAnalysisResponseItem) : PostResponse
  | error (status : Nat) (message : String) : PostResponse
deriving DecidableEq, Repr

/-- JavaScript `error?.message || fallback` as used in the batch route's
per-image catch: falls back when the thrown value exposes no string
message, and also when the message is the empty string (falsy). -/
def jsMessageOr (fallback : String) : JsError → String
  | .withMessage m => if m = "" then fallback else m
  | .other => fallback

/-- The `POST` handler of `src/app/api/batch/route.ts`.

* `hasApiKey` embeds the `process.env.OPENAI_API_KEY` guard;
* `question`/`images` are the parsed request body fields
  (`(body?.question ?? "").toString().trim()` and the images array);
* `generateTextOutcome i` is the outcome of the per-image
  `generateText` call for image `i`.

Returns the response together with the number of model calls issued. -/
def POST (hasApiKey : Bool) (question : String) (images : List String)
    (generateTextOutcome : Nat → Except JsError String) :
    PostResponse × Nat :=
  if hasApiKey = false then
    (.error 500 "Server configuration error: missing OpenAI API key", 0)
  else
    let q := jsTrim question
    if q = "" then
      (.error 400 "Please provide a question.", 0)
    else if images.length = 0 then
      (.error 400 "Please upload at least one image.", 0)
    else if images.length > 4 then
      (.error 400 "You can upload up to 4 images.", 0)
    else
      (.results 200
        (images.mapIdx fun index _ =>
          match generateTextOutcome index with
          | .ok text => .success index text
          | .error e =>
              .failure index
                (jsMessageOr "Failed to analyze this image. Please try again." e)),
       images.length)

end BatchRoute

namespace Page

/-- One entry of an assistant message's `results`
(`ImageAnalysisResult` on the client): `{index, ok, text?, error?, image}`.
Absent optional fields are `none` (JS `undefined`). -/
structure ImageAnalysisResult where
  index : Nat
  ok : Bool
  text : Option String
  error : Option String
  image : String
deriving DecidableEq, Repr

/-- A transcript entry (`ChatMessage`): user or assistant variant.
The optional `pending?: boolean` flag of the assistant variant is a
`Bool` (JS `undefined` is falsy, and the code only ever tests
truthiness). -/
inductive ChatMessage where
  | user (id : Nat) (question : String) (images : List String) (createdAt : Nat) : ChatMessage
  | assistant (id : Nat) (results : List ImageAnalysisResult) (createdAt : Nat)
      (pending : Bool) : ChatMessage
deriving DecidableEq, Repr

/-- An image staged in the composer (`UploadedImage`): a fresh id from
`crypto.randomUUID()` and the data-URL preview. The original `File`
object is carried along by the code but never read by the core logic,
so it is omitted here. -/
structure UploadedImage where
  id : Nat
  preview : String
deriving DecidableEq, Repr

/-- The `Page` component's state: transcript plus composer. -/
structure PageState where
  messages : List ChatMessage
  uploadedImages : List UploadedImage
  question : String
  submitting : Bool
  globalError : Option String
deriving DecidableEq, Repr

/-- `canSubmit`: non-empty trimmed question, at least one staged image,
and no submission in flight. -/
def canSubmit (s : PageState) : Bool :=
  decide (0 < (jsTrim s.question).length) && decide (0 < s.uploadedImages.length)
    && !s.submitting

/-- `handleDrop`: clears the error banner, keeps at most
`Math.max(0, 4 - uploadedImages.length)` of the accepted files (natural
subtraction is exactly `max 0 (4 - len)`), warns when files were dropped,
and appends the kept files (as fresh id / preview pairs) to the
composer. -/
def handleDrop (s : PageState) (acceptedFiles : List (Nat × String)) : PageState :=
  let remaining := 4 - s.uploadedImages.length
  let files := acceptedFiles.take remaining
  { s with
    globalError :=
      if remaining < acceptedFiles.length then some "You can upload up to 4 images."
      else none,
    uploadedImages :=
      s.uploadedImages ++ files.map fun f => { id := f.1, preview := f.2 } }

/-- `removeItem`: drop the staged image with the given id. -/
def removeItem (s : PageState) (id : Nat) : PageState :=
  { s with uploadedImages := s.uploadedImages.filter fun i => i.id != id }

/-- `clearAll`: empty the composer's staged images and reset the error
banner. -/
def clearAll (s : PageState) : PageState :=
  { s with uploadedImages := [], globalError := none }

/-- The placeholder results of the pending assistant message:
`images.map((img, idx) => ({index: idx, ok: true, text: 'Analyzing...',
image: img}))`. -/
def placeholderResults (images : List String) : List ImageAnalysisResult :=
  images.mapIdx fun idx img =>
    { index := idx, ok := true, text := some "Analyzing...", error := none, image := img }

/-- The two transcript entries appended on submission, sharing one
correlation timestamp `createdAt`. -/
def submittedMessages (q : String) (images : List String)
    (userId assistantId createdAt : Nat) : List ChatMessage :=
  [ .user userId q images createdAt,
    .assistant assistantId (placeholderResults images) createdAt true ]

/-- The synchronous first phase of the submit handler, after the
`canSubmit` gate: set `submitting` and append the user message plus the
pending placeholder assistant message. -/
def startSubmit (s : PageState) (userId assistantId createdAt : Nat) : PageState :=
  { s with
    submitting := true,
    messages := s.messages ++
      submittedMessages (jsTrim s.question) (s.uploadedImages.map fun u => u.preview)
        userId assistantId createdAt }

/-- The per-index combination of the service response with the input
images: `analysisResponse.results.find(x => x.index === idx)`, adopting
the found item's fields, or `error: 'Unexpected server error'` when no
item carries the index. -/
def combineResults (images : List String)
    (respResults : List Service.ImageAnalysisResponseItem) :
    List ImageAnalysisResult :=
  images.mapIdx fun idx img =>
    match respResults.find? (fun x => x.index == idx) with
    | some (.success _ text) =>
        { index := idx, ok := true, text := some text, error := none, image := img }
    | some (.failure _ err) =>
        { index := idx, ok := false, text := none, error := some err, image := img }
    | none =>
        { index := idx, ok := false, text := none,
          error := some "Unexpected server error", image := img }

/-- The resolution step: replace, in place, every assistant message with
`pending === true && createdAt === createdAt` by its resolved version
(`pending := false`, combined results); every other message maps to
itself. -/
def resolveMessages (images : List String) (createdAt : Nat)
    (respResults : List Service.ImageAnalysisResponseItem)
    (messages : List ChatMessage) : List ChatMessage :=
  messages.map fun m =>
    match m with
    | .assistant id _ t true =>
        if t = createdAt then
          .assistant id (combineResults images respResults) t false
        else m
    | _ => m

/-- The failure path over the transcript: every pending assistant message
becomes non-pending, each of its results keeping index and image but
getting `ok: false, text: undefined, error: message`. -/
def failMessages (message : String) (messages : List ChatMessage) : List ChatMessage :=
  messages.map fun m =>
    match m with
    | .assistant id results t true =>
        .assistant id
          (results.map fun r => { r with ok := false, text := none, error := some message })
          t false
    | _ => m

/-- The full `analyzeImages` workflow of the `Page` component, as one
state transition. The awaited `analyzeImagesAction` (a passthrough to the
Batch Analysis Service) is embedded as the `outcome` parameter; the
second component of the result lists the `(question, images)` service
calls issued (empty when the `canSubmit` gate rejects the attempt).

Order of effects mirrors the handler: clear the error banner, gate on
`canSubmit`, append the two messages, await the service; on `.ok` resolve
the pending message and clear the composer; on `.error` derive a message
via `isErrorWithMessage`, set the banner and fail all pending messages,
leaving the composer intact; `submitting` ends `false` either way. -/
def analyzeImagesRun (s : PageState) (userId assistantId createdAt : Nat)
    (outcome : Except JsError (List Service.ImageAnalysisResponseItem)) :
    PageState × List (String × List String) :=
  let s0 := { s with globalError := none }
  if canSubmit s = false then
    (s0, [])
  else
    let images := s.uploadedImages.map fun u => u.preview
    let q := jsTrim s.question
    let s1 := startSubmit s0 userId assistantId createdAt
    match outcome with
    | .ok resp =>
        ({ s1 with
            messages := resolveMessages images createdAt resp s1.messages,
            uploadedImages := [],
            question := "",
            submitting := false },
         [(q, images)])
    | .error e =>
        let message :=
          if isErrorWithMessage e then e.getMessage else "Unexpected client error"
        ({ s1 with
            globalError := some message,
            messages := failMessages message s1.messages,
            submitting := false },
         [(q, images)])

end Page

/-! ## General list lemmas shared by the proofs -/

theorem get?_mapIdx {α β : Type} (f : Nat → α → β) (l : List α) (i : Nat) :
    (l.mapIdx f).get? i = (l.get? i).map (f i) := by
  by_cases h : i < l.length
  · have h' : i < (l.mapIdx f).length := by
      simpa [List.length_mapIdx] using h
    rw [List.get?_eq_get h, List.get?_eq_get h']
    simp [List.get_mapIdx]
  · have h1 : l.get? i = none := List.get?_eq_none.2 (le_of_not_lt h)
    have h2 : (l.mapIdx f).get? i = none :=
      List.get?_eq_none.2 (by simpa [List.length_mapIdx] using le_of_not_lt h)
    simp [h1, h2]

theorem find?_eq_some_of_first {α : Type} (p : α → Bool) (l : List α) :
    ∀ (j : Nat) (hj : j < l.length),
      p (l.get ⟨j, hj⟩) = true →
      (∀ k (hk : k < l.length), k < j → p (l.get ⟨k, hk⟩) = false) →
      l.find? p = some (l.get ⟨j, hj⟩) := by
  induction l with
  | nil => intro j hj; simp at hj
  | cons a l ih =>
    intro j hj hp hmin
    cases j with
    | zero =>
      simp only [List.get] at hp
      simp [List.find?_cons, hp]
    | succ j =>
      have ha : p a = false := hmin 0 (by simp) (Nat.succ_pos j)
      have hj' : j < l.length := Nat.lt_of_succ_lt_succ hj
      have hp' : p (l.get ⟨j, hj'⟩) = true := by simpa using hp
      have hmin' : ∀ k (hk : k < l.length), k < j → p (l.get ⟨k, hk⟩) = false := by
        intro k hk hkj
        have := hmin (k + 1) (by simpa using Nat.succ_lt_succ hk) (Nat.succ_lt_succ hkj)
        simpa using this
      have hrec := ih j hj' hp' hmin'
      simp [List.find?_cons, ha, hrec]

theorem find?_filter_of_imp {α : Type} (q p : α → Bool)
    (hqp : ∀ x, q x = true → p x = true) (l : List α) :
    (l.filter p).find? q = l.find? q := by
  induction l with
  | nil => rfl
  | cons a l ih =>
    by_cases hp : p a = true
    · by_cases hq : q a = true
      · simp [List.filter_cons, hp, List.find?_cons, hq]
      · simp only [Bool.not_eq_true] at hq
        simp [List.filter_cons, hp, List.find?_cons, hq, ih]
    · have hq : q a = false := by
        cases h : q a
        · rfl
        · exact absurd (hqp a h) hp
      simp only [Bool.not_eq_true] at hp
      simp [List.filter_cons, hp, List.find?_cons, hq, ih]

/-! ## Claims about the Batch Analysis Service -/

/-- C1: for every question and images list of length N with 1 ≤ N ≤ 4,
and every structured output the model returned, `analyzeImages` yields
exactly N results; the entry at position i carries index i (so the index
set is exactly 0..N-1, in order, with no duplicates and no gaps); when no
model entry carries index i the entry is the failure
"No response received for this image.", and when model entries carry
index i the entry adopts the text of the first such entry in model
emission order. -/
theorem analyzeImages_reconciliation (question : String) (images : List String)
    (modelResults : List Service.AIImageAnalysisResponseItem)
    (hlo : 1 ≤ images.length) (hhi : images.length ≤ 4) :
    (Service.analyzeImages question images (.ok modelResults)).length = images.length ∧
    (∀ i, i < images.length →
      ((Service.analyzeImages question images (.ok modelResults)).get? i).map
        Service.ImageAnalysisResponseItem.index = some i) ∧
    (∀ i, i < images.length →
      (∀ r ∈ modelResults, r.index ≠ (i : Int)) →
      (Service.analyzeImages question images (.ok modelResults)).get? i =
        some (.failure i "No response received for this image.")) ∧
    (∀ i, i < images.length →
      ∀ j (hj : j < modelResults.length),
        (modelResults.get ⟨j, hj⟩).index = (i : Int) →
        (∀ k (hk : k < modelResults.length), k < j →
          (modelResults.get ⟨k, hk⟩).index ≠ (i : Int)) →
        (Service.analyzeImages question images (.ok modelResults)).get? i =
          some (.success i (modelResults.get ⟨j, hj⟩).text)) := by
  refine ⟨?_, ?_, ?_, ?_⟩
  · simp [Service.analyzeImages, List.length_mapIdx]
  · intro i h
    rw [Service.analyzeImages, get?_mapIdx, List.get?_eq_get h]
    cases hf : modelResults.find? (fun r => r.index == (i : Int)) with
    | none => simp [hf, Service.ImageAnalysisResponseItem.index]
    | some analysis => simp [hf, Service.ImageAnalysisResponseItem.index]
  · intro i h hnone
    have hf : modelResults.find? (fun r => r.index == (i : Int)) = none :=
      List.find?_eq_none.2 (fun x hx => by simpa [beq_iff_eq] using hnone x hx)
    rw [Service.analyzeImages, get?_mapIdx, List.get?_eq_get h]
    simp [hf]
  · intro i h j hj hpj hmin
    have hf : modelResults.find? (fun r => r.index == (i : Int)) =
        some (modelResults.get ⟨j, hj⟩) :=
      find?_eq_some_of_first _ modelResults j hj (by simpa using hpj)
        (fun k hk hkj => by simpa using hmin k hk hkj)
    rw [Service.analyzeImages, get?_mapIdx, List.get?_eq_get h]
    simp [hf]

/-- Witness for C1 at a concrete input: three images, the model answered
only index 1; index 0 reconciles to the omission failure and index 1 to
the model's text. -/
theorem analyzeImages_reconciliation_witness :
    (Service.analyzeImages "q" ["a", "b", "c"]
      (.ok [{ index := 1, text := "A" }])).get? 0 =
        some (.failure 0 "No response received for this image.") ∧
    (Service.analyzeImages "q" ["a", "b", "c"]
      (.ok [{ index := 1, text := "A" }])).get? 1 =
        some (.success 1 "A") :=
  ⟨(analyzeImages_reconciliation "q" ["a", "b", "c"] [{ index := 1, text := "A" }]
      (by decide) (by decide)).2.2.1 0 (by decide) (by decide),
   (analyzeImages_reconciliation "q" ["a", "b", "c"] [{ index := 1, text := "A" }]
      (by decide) (by decide)).2.2.2 1 (by decide) 0 (by decide) (by decide)
      (by decide)⟩

/-- C2: when the model call throws a value `e`, `analyzeImages` returns a
full-length sequence of N results: every index i in [0, N) gets a failure
item whose message is `e.message` when `e` passes the
`isErrorWithMessage` guard, and the generic
"Failed to analyze images. Please try again." otherwise; the caller never
observes a thrown error, a partial array, or an empty array (the
embedding of the call is total and its length always equals N). -/
theorem analyzeImages_failure_fallback (question : String) (images : List String)
    (e : JsError) :
    (Service.analyzeImages question images (.error e)).length = images.length ∧
    (∀ i, i < images.length → ∀ m, e = .withMessage m →
      (Service.analyzeImages question images (.error e)).get? i =
        some (.failure i m)) ∧
    (∀ i, i < images.length → isErrorWithMessage e = false →
      (Service.analyzeImages question images (.error e)).get? i =
        some (.failure i "Failed to analyze images. Please try again.")) := by
  refine ⟨?_, ?_, ?_⟩
  · simp [Service.analyzeImages, List.length_mapIdx]
  · intro i h m hm
    subst hm
    rw [Service.analyzeImages, get?_mapIdx, List.get?_eq_get h]
    simp [isErrorWithMessage, JsError.getMessage]
  · intro i h hguard
    cases e with
    | withMessage m => simp [isErrorWithMessage] at hguard
    | other =>
        rw [Service.analyzeImages, get?_mapIdx, List.get?_eq_get h]
        simp [isErrorWithMessage, JsError.getMessage]

/-- Witness for C2 at concrete inputs: two images; a thrown object with
message "quota exceeded" propagates its message to both indices, and a
message-less thrown value yields the generic fallback. -/
theorem analyzeImages_failure_fallback_witness :
    (Service.analyzeImages "q" ["a", "b"]
      (.error (.withMessage "quota exceeded"))).get? 1 =
        some (.failure 1 "quota exceeded") ∧
    (Service.analyzeImages "q" ["a", "b"] (.error .other)).get? 0 =
        some (.failure 0 "Failed to analyze images. Please try again.") :=
  ⟨(analyzeImages_failure_fallback "q" ["a", "b"]
      (.withMessage "quota exceeded")).2.1 1 (by decide) "quota exceeded" rfl,
   (analyzeImages_failure_fallback "q" ["a", "b"] .other).2.2 0 (by decide)
      (by decide)⟩

/-- C10: the output of `analyzeImages` depends only on the model entries
whose `index` field lies in [0, N): for any two structured outputs that
agree on the subsequence of entries with in-range index (same entries, in
the same order), the results are identical — negative, out-of-range or
otherwise extraneous indices can never affect any returned result. -/
theorem analyzeImages_ignores_extraneous (question : String) (images : List String)
    (l₁ l₂ : List Service.AIImageAnalysisResponseItem)
    (hagree : l₁.filter (Service.entryIndexInRange images.length) =
              l₂.filter (Service.entryIndexInRange images.length)) :
    Service.analyzeImages question images (.ok l₁) =
      Service.analyzeImages question images (.ok l₂) := by
  apply List.ext_get?
  intro n
  rw [Service.analyzeImages, Service.analyzeImages, get?_mapIdx, get?_mapIdx]
  by_cases h : n < images.length
  · have himp : ∀ x : Service.AIImageAnalysisResponseItem,
        (x.index == (n : Int)) = true →
        Service.entryIndexInRange images.length x = true := by
      intro x hx
      simp only [beq_iff_eq] at hx
      simp only [Service.entryIndexInRange, hx, Bool.and_eq_true, decide_eq_true_eq]
      omega
    have hfind : l₁.find? (fun r => r.index == (n : Int)) =
        l₂.find? (fun r => r.index == (n : Int)) := by
      rw [← find?_filter_of_imp _ _ himp l₁, ← find?_filter_of_imp _ _ himp l₂, hagree]
    rw [hfind]
  · rw [List.get?_eq_none.2 (le_of_not_lt h)]
    rfl

/-- Witness for C10 at concrete inputs: one image; a leading entry with
index -1 and a trailing entry with index 5 are ignored, so both outputs
adopt the entry with index 0. -/
theorem analyzeImages_ignores_extraneous_witness :
    Service.analyzeImages "q" ["a"]
      (.ok [{ index := -1, text := "x" }, { index := 0, text := "A" }]) =
    Service.analyzeImages "q" ["a"]
      (.ok [{ index := 0, text := "A" }, { index := 5, text := "y" }]) :=
  analyzeImages_ignores_extraneous "q" ["a"]
    [{ index := -1, text := "x" }, { index := 0, text := "A" }]
    [{ index := 0, text := "A" }, { index := 5, text := "y" }] (by decide)

/-! ## Claim about the HTTP validation boundary -/

/-- C3: on a configured server (API key present), a POST whose trimmed
question is empty is rejected with a 400 "Please provide a question.";
one with zero images with a 400 "Please upload at least one image.";
one with more than 4 images with a 400 "You can upload up to 4 images.";
and in every rejection case zero model calls are issued. -/
theorem POST_validation (hasApiKey : Bool) (question : String)
    (images : List String) (generateTextOutcome : Nat → Except JsError String)
    (hkey : hasApiKey = true) :
    (jsTrim question = "" →
      BatchRoute.POST hasApiKey question images generateTextOutcome =
        (.error 400 "Please provide a question.", 0)) ∧
    (jsTrim question ≠ "" → images.length = 0 →
      BatchRoute.POST hasApiKey question images generateTextOutcome =
        (.error 400 "Please upload at least one image.", 0)) ∧
    (jsTrim question ≠ "" → 4 < images.length →
      BatchRoute.POST hasApiKey question images generateTextOutcome =
        (.error 400 "You can upload up to 4 images.", 0)) := by
  subst hkey
  refine ⟨?_, ?_, ?_⟩
  · intro hq
    simp [BatchRoute.POST, hq]
  · intro hq himg
    simp [BatchRoute.POST, hq, himg]
  · intro hq himg
    have h0 : images.length ≠ 0 := by omega
    simp [BatchRoute.POST, hq, h0, himg, Nat.not_le_of_lt himg]

/-- Witness for C3 at concrete inputs: a whitespace-only question, an
empty images list, and a five-image list are each rejected with the
corresponding 400 message and zero model calls. -/
theorem POST_validation_witness :
    BatchRoute.POST true "  " ["i1"] (fun _ => .ok "t") =
      (.error 400 "Please provide a question.", 0) ∧
    BatchRoute.POST true "q" [] (fun _ => .ok "t") =
      (.error 400 "Please upload at least one image.", 0) ∧
    BatchRoute.POST true "q" ["i1", "i2", "i3", "i4", "i5"] (fun _ => .ok "t") =
      (.error 400 "You can upload up to 4 images.", 0) :=
  ⟨(POST_validation true "  " ["i1"] (fun _ => .ok "t") rfl).1 (by decide),
   (POST_validation true "q" [] (fun _ => .ok "t") rfl).2.1 (by decide) rfl,
   (POST_validation true "q" ["i1", "i2", "i3", "i4", "i5"] (fun _ => .ok "t")
      rfl).2.2 (by decide) (by decide)⟩

/-! ## Claims about the conversation reconciliation (Page component) -/

/-- C4: with a non-empty trimmed question, between 1 and 4 staged images
and no submission in flight, the submission gate passes and the submit
phase appends exactly two entries in one step: the user message with the
trimmed question and the staged images, and a pending assistant message
whose results are one "Analyzing..." placeholder per staged image, both
carrying the same correlation timestamp. -/
theorem startSubmit_appends (s : Page.PageState) (userId assistantId createdAt : Nat)
    (hq : jsTrim s.question ≠ "") (h1 : 1 ≤ s.uploadedImages.length)
    (h4 : s.uploadedImages.length ≤ 4) (hs : s.submitting = false) :
    Page.canSubmit s = true ∧
    (Page.startSubmit s userId assistantId createdAt).messages =
      s.messages ++
        [ .user userId (jsTrim s.question) (s.uploadedImages.map fun u => u.preview)
            createdAt,
          .assistant assistantId
            (Page.placeholderResults (s.uploadedImages.map fun u => u.preview))
            createdAt true ] ∧
    (Page.placeholderResults (s.uploadedImages.map fun u => u.preview)).length =
      s.uploadedImages.length ∧
    ∀ idx img,
      (s.uploadedImages.map fun u => u.preview).get? idx = some img →
      (Page.placeholderResults (s.uploadedImages.map fun u => u.preview)).get? idx =
        some { index := idx, ok := true, text := some "Analyzing...", error := none,
               image := img } := by
  refine ⟨?_, ?_, ?_, ?_⟩
  · have hq' : 0 < (jsTrim s.question).length := by
      rcases h : jsTrim s.question with ⟨cs⟩
      cases cs with
      | nil => exact absurd h hq
      | cons a l => simp [String.length]
    simp only [Page.canSubmit, hs, Bool.not_false, Bool.and_true, Bool.and_eq_true,
      decide_eq_true_eq]
    exact ⟨hq', h1⟩
  · simp [Page.startSubmit, Page.submittedMessages]
  · simp [Page.placeholderResults, List.length_mapIdx]
  · intro idx img himg
    rw [Page.placeholderResults, get?_mapIdx, himg]
    rfl

/-- Witness for C4 at a concrete state: one staged image, question
" hi ", empty transcript; the appended pair is the user message for "hi"
and the pending placeholder assistant message. -/
theorem startSubmit_appends_witness :
    (Page.startSubmit
      { messages := [], uploadedImages := [{ id := 7, preview := "imgA" }],
        question := " hi ", submitting := false, globalError := none }
      1 2 99).messages =
      [ .user 1 "hi" ["imgA"] 99,
        .assistant 2 (Page.placeholderResults ["imgA"]) 99 true ] :=
  (startSubmit_appends
    { messages := [], uploadedImages := [{ id := 7, preview := "imgA" }],
      question := " hi ", submitting := false, globalError := none }
    1 2 99 (by decide) (by decide) (by decide) rfl).2.1

/-- C5: the resolution step replaces, in place, the assistant message
matched by pending and creation timestamp with a non-pending message
whose results are recomputed per input index: the returned item with
`index` equal to idx is looked up by index value (first match in the
returned order); if it is a success its text is adopted, if a failure its
error is adopted (both keeping the image), and if no item carries idx the
entry becomes the "Unexpected server error" failure. -/
theorem resolveMessages_resolves (images : List String) (createdAt : Nat)
    (resp : List Service.ImageAnalysisResponseItem) (msgs : List Page.ChatMessage)
    (p id : Nat) (results : List Page.ImageAnalysisResult)
    (hp : msgs.get? p = some (.assistant id results createdAt true)) :
    (Page.resolveMessages images createdAt resp msgs).get? p =
      some (.assistant id (Page.combineResults images resp) createdAt false) ∧
    ∀ idx img, images.get? idx = some img →
      ((∀ r ∈ resp, r.index ≠ idx) →
        (Page.combineResults images resp).get? idx =
          some { index := idx, ok := false, text := none,
                 error := some "Unexpected server error", image := img }) ∧
      (∀ j (hj : j < resp.length),
        (∀ k (hk : k < resp.length), k < j → (resp.get ⟨k, hk⟩).index ≠ idx) →
        (∀ txt, resp.get ⟨j, hj⟩ = .success idx txt →
          (Page.combineResults images resp).get? idx =
            some { index := idx, ok := true, text := some txt, error := none,
                   image := img }) ∧
        (∀ err, resp.get ⟨j, hj⟩ = .failure idx err →
          (Page.combineResults images resp).get? idx =
            some { index := idx, ok := false, text := none, error := some err,
                   image := img })) := by
  constructor
  · rw [Page.resolveMessages, List.get?_map, hp]
    simp
  · intro idx img himg
    constructor
    · intro hnone
      have hfind : resp.find? (fun x => x.index == idx) = none :=
        List.find?_eq_none.2 (fun x hx => by simpa using hnone x hx)
      rw [Page.combineResults, get?_mapIdx, himg]
      simp [hfind]
    · intro j hj hmin
      constructor
      · intro txt hjs
        have hfind : resp.find? (fun x => x.index == idx) =
            some (resp.get ⟨j, hj⟩) :=
          find?_eq_some_of_first _ resp j hj
            (by rw [hjs]; simp [Service.ImageAnalysisResponseItem.index])
            (fun k hk hkj => by simpa using hmin k hk hkj)
        rw [hjs] at hfind
        rw [Page.combineResults, get?_mapIdx, himg]
        simp [hfind]
      · intro err hjs
        have hfind : resp.find? (fun x => x.index == idx) =
            some (resp.get ⟨j, hj⟩) :=
          find?_eq_some_of_first _ resp j hj
            (by rw [hjs]; simp [Service.ImageAnalysisResponseItem.index])
            (fun k hk hkj => by simpa using hmin k hk hkj)
        rw [hjs] at hfind
        rw [Page.combineResults, get?_mapIdx, himg]
        simp [hfind]

/-- Witness for C5 at concrete inputs: a transcript with one pending
assistant message at timestamp 9 and one returned failure item for index
0; the message is resolved in place and adopts the returned error. -/
theorem resolveMessages_resolves_witness :
    (Page.resolveMessages ["imgA"] 9 [.failure 0 "boom"]
      [.assistant 5 (Page.placeholderResults ["imgA"]) 9 true]).get? 0 =
      some (.assistant 5 (Page.combineResults ["imgA"] [.failure 0 "boom"]) 9 false) ∧
    (Page.combineResults ["imgA"] [.failure 0 "boom"]).get? 0 =
      some { index := 0, ok := false, text := none, error := some "boom",
             image := "imgA" } :=
  ⟨(resolveMessages_resolves ["imgA"] 9 [.failure 0 "boom"]
      [.assistant 5 (Page.placeholderResults ["imgA"]) 9 true] 0 5
      (Page.placeholderResults ["imgA"]) rfl).1,
   (((resolveMessages_resolves ["imgA"] 9 [.failure 0 "boom"]
      [.assistant 5 (Page.placeholderResults ["imgA"]) 9 true] 0 5
      (Page.placeholderResults ["imgA"]) rfl).2 0 "imgA" rfl).2 0 (by decide)
      (by decide)).2 "boom" rfl⟩

/-- C6: transcript operations only append or patch in place. The
submission step appends (it preserves every existing entry at its
position, adding 2 to the length); the resolution step preserves the
length and leaves every message other than a pending assistant message
with the matching creation key unchanged at its position; the failure
step preserves the length and leaves every non-pending message unchanged
at its position. No message is ever removed, duplicated or reordered. -/
theorem transcript_append_patch_only (s : Page.PageState) (uid aid t : Nat)
    (images : List String) (resp : List Service.ImageAnalysisResponseItem)
    (msgs : List Page.ChatMessage) (msg : String) :
    (Page.startSubmit s uid aid t).messages.length = s.messages.length + 2 ∧
    (∀ p, p < s.messages.length →
      (Page.startSubmit s uid aid t).messages.get? p = s.messages.get? p) ∧
    (Page.resolveMessages images t resp msgs).length = msgs.length ∧
    (∀ p m, msgs.get? p = some m →
      (∀ id results, m ≠ .assistant id results t true) →
      (Page.resolveMessages images t resp msgs).get? p = some m) ∧
    (Page.failMessages msg msgs).length = msgs.length ∧
    (∀ p m, msgs.get? p = some m →
      (∀ id results t0, m ≠ .assistant id results t0 true) →
      (Page.failMessages msg msgs).get? p = some m) := by
  refine ⟨?_, ?_, ?_, ?_, ?_, ?_⟩
  · simp [Page.startSubmit, Page.submittedMessages]
  · intro p hp
    rw [Page.startSubmit]
    exact List.get?_append hp
  · simp [Page.resolveMessages]
  · intro p m hm hne
    rw [Page.resolveMessages, List.get?_map, hm]
    cases m with
    | user id q imgs t0 => rfl
    | assistant id results t0 pending =>
        cases pending with
        | false => rfl
        | true =>
            by_cases ht : t0 = t
            · subst ht
              exact absurd rfl (hne id results)
            · simp [ht]
  · simp [Page.failMessages]
  · intro p m hm hne
    rw [Page.failMessages, List.get?_map, hm]
    cases m with
    | user id q imgs t0 => rfl
    | assistant id results t0 pending =>
        cases pending with
        | false => rfl
        | true => exact absurd rfl (hne id results t0)

/-- Witness for C6 at a concrete transcript: a resolved (non-pending)
assistant message and a user message survive both the resolution and the
failure step unchanged at their positions, and the submission step keeps
the existing entry at position 0. -/
theorem transcript_append_patch_only_witness :
    (Page.startSubmit
      { messages := [.user 3 "old" [] 1], uploadedImages := [{ id := 0, preview := "i" }],
        question := "x", submitting := false, globalError := none }
      8 9 2).messages.get? 0 = some (.user 3 "old" [] 1) ∧
    (Page.resolveMessages ["i"] 2 [] [.user 3 "old" [] 1]).get? 0 =
      some (.user 3 "old" [] 1) ∧
    (Page.failMessages "e" [.assistant 4 [] 1 false]).get? 0 =
      some (.assistant 4 [] 1 false) :=
  ⟨by
    have h := (transcript_append_patch_only
      { messages := [.user 3 "old" [] 1], uploadedImages := [{ id := 0, preview := "i" }],
        question := "x", submitting := false, globalError := none }
      8 9 2 ["i"] [] [.user 3 "old" [] 1] "e").2.1 0 (by decide)
    rw [h]
    rfl,
   (transcript_append_patch_only
      { messages := [.user 3 "old" [] 1], uploadedImages := [{ id := 0, preview := "i" }],
        question := "x", submitting := false, globalError := none }
      8 9 2 ["i"] [] [.user 3 "old" [] 1] "e").2.2.2.1 0 (.user 3 "old" [] 1) rfl
      (by intro id results h; cases h),
   (transcript_append_patch_only
      { messages := [.user 3 "old" [] 1], uploadedImages := [{ id := 0, preview := "i" }],
        question := "x", submitting := false, globalError := none }
      8 9 2 ["i"] [] [.assistant 4 [] 1 false] "e").2.2.2.2.2 0
      (.assistant 4 [] 1 false) rfl (by intro id results t0 h; cases h)⟩

/-- C7: on a transport-level failure carrying message m, the handler
leaves the composer (staged images and question) intact, sets the
session-level error banner to m, and converts every pending assistant
message of the submitted transcript into a non-pending one whose results
all become ok=false with error m; conversely on the resolved path the
composer is cleared (staged images emptied, question reset). -/
theorem analyzeImagesRun_failed_vs_resolved (s : Page.PageState) (uid aid t : Nat)
    (m : String) (resp : List Service.ImageAnalysisResponseItem)
    (hc : Page.canSubmit s = true) :
    (Page.analyzeImagesRun s uid aid t (.error (.withMessage m))).1.uploadedImages =
      s.uploadedImages ∧
    (Page.analyzeImagesRun s uid aid t (.error (.withMessage m))).1.question =
      s.question ∧
    (Page.analyzeImagesRun s uid aid t (.error (.withMessage m))).1.globalError =
      some m ∧
    (∀ p id results t0,
      (Page.startSubmit s uid aid t).messages.get? p =
        some (.assistant id results t0 true) →
      (Page.analyzeImagesRun s uid aid t (.error (.withMessage m))).1.messages.get? p =
        some (.assistant id
          (results.map fun r => { r with ok := false, text := none, error := some m })
          t0 false)) ∧
    (Page.analyzeImagesRun s uid aid t (.ok resp)).1.uploadedImages = [] ∧
    (Page.analyzeImagesRun s uid aid t (.ok resp)).1.question = "" := by
  refine ⟨?_, ?_, ?_, ?_, ?_, ?_⟩
  · simp [Page.analyzeImagesRun, hc, Page.startSubmit]
  · simp [Page.analyzeImagesRun, hc, Page.startSubmit]
  · simp [Page.analyzeImagesRun, hc, isErrorWithMessage, JsError.getMessage]
  · intro p id results t0 hp
    have hmsgs : (Page.analyzeImagesRun s uid aid t
        (.error (.withMessage m))).1.messages =
        Page.failMessages m (Page.startSubmit s uid aid t).messages := by
      simp [Page.analyzeImagesRun, hc, isErrorWithMessage, JsError.getMessage,
        Page.startSubmit, Page.failMessages]
    rw [hmsgs, Page.failMessages, List.get?_map, hp]
    rfl
  · simp [Page.analyzeImagesRun, hc]
  · simp [Page.analyzeImagesRun, hc]

/-- Witness for C7 at a concrete state: one staged image and question
"hi"; failure with message "net down" keeps the composer, sets the
banner, and fails the freshly appended pending message; the ok path
clears the composer. -/
theorem analyzeImagesRun_failed_vs_resolved_witness :
    (Page.analyzeImagesRun
      { messages := [], uploadedImages := [{ id := 1, preview := "i" }],
        question := "hi", submitting := false, globalError := none }
      8 9 2 (.error (.withMessage "net down"))).1.uploadedImages =
        [{ id := 1, preview := "i" }] ∧
    (Page.analyzeImagesRun
      { messages := [], uploadedImages := [{ id := 1, preview := "i" }],
        question := "hi", submitting := false, globalError := none }
      8 9 2 (.error (.withMessage "net down"))).1.globalError = some "net down" ∧
    (Page.analyzeImagesRun
      { messages := [], uploadedImages := [{ id := 1, preview := "i" }],
        question := "hi", submitting := false, globalError := none }
      8 9 2 (.ok [.success 0 "ans"])).1.uploadedImages = [] :=
  ⟨(analyzeImagesRun_failed_vs_resolved
      { messages := [], uploadedImages := [{ id := 1, preview := "i" }],
        question := "hi", submitting := false, globalError := none }
      8 9 2 "net down" [.success 0 "ans"] (by decide)).1,
   (analyzeImagesRun_failed_vs_resolved
      { messages := [], uploadedImages := [{ id := 1, preview := "i" }],
        question := "hi", submitting := false, globalError := none }
      8 9 2 "net down" [.success 0 "ans"] (by decide)).2.2.1,
   (analyzeImagesRun_failed_vs_resolved
      { messages := [], uploadedImages := [{ id := 1, preview := "i" }],
        question := "hi", submitting := false, globalError := none }
      8 9 2 "net down" [.success 0 "ans"] (by decide)).2.2.2.2.1⟩

/-- C8: the submitting flag is a mutual-exclusion latch. Whenever it is
set, a second submit attempt is rejected rather than buffered: the
handler only clears the error banner, appends nothing to the transcript,
and issues zero service calls. -/
theorem analyzeImagesRun_mutex (s : Page.PageState) (uid aid t : Nat)
    (outcome : Except JsError (List Service.ImageAnalysisResponseItem))
    (h : s.submitting = true) :
    Page.analyzeImagesRun s uid aid t outcome = ({ s with globalError := none }, []) ∧
    (Page.analyzeImagesRun s uid aid t outcome).1.messages = s.messages ∧
    (Page.analyzeImagesRun s uid aid t outcome).2 = [] := by
  have hc : Page.canSubmit s = false := by simp [Page.canSubmit, h]
  refine ⟨?_, ?_, ?_⟩ <;> simp [Page.analyzeImagesRun, hc]

/-- Witness for C8 at a concrete in-flight state: with `submitting` set,
the run changes nothing but the banner and issues no call. -/
theorem analyzeImagesRun_mutex_witness :
    Page.analyzeImagesRun
      { messages := [], uploadedImages := [{ id := 1, preview := "i" }],
        question := "hi", submitting := true, globalError := some "old" }
      8 9 2 (.ok []) =
      ({ messages := [], uploadedImages := [{ id := 1, preview := "i" }],
         question := "hi", submitting := true, globalError := none }, []) :=
  (analyzeImagesRun_mutex
    { messages := [], uploadedImages := [{ id := 1, preview := "i" }],
      question := "hi", submitting := true, globalError := some "old" }
    8 9 2 (.ok []) rfl).1

/-- C9: the composer's staged-image list never exceeds 4 items. From a
state with at most 4 staged images: `handleDrop` adds exactly
`min (max 0 (4 - current)) dropped` items (so at most the remaining
room) and only sets a warning banner for the excess; `removeItem` only
shrinks the list; `clearAll` empties it; a resolved run empties it; any
run keeps it within the bound; and every service call a run issues
carries between 1 and 4 images. -/
theorem composer_bounded (s : Page.PageState) (accepted : List (Nat × String))
    (imgId uid aid t : Nat)
    (outcome : Except JsError (List Service.ImageAnalysisResponseItem))
    (resp : List Service.ImageAnalysisResponseItem)
    (h4 : s.uploadedImages.length ≤ 4) :
    (Page.handleDrop s accepted).uploadedImages.length =
      s.uploadedImages.length + min (4 - s.uploadedImages.length) accepted.length ∧
    (Page.handleDrop s accepted).uploadedImages.length ≤ 4 ∧
    (4 - s.uploadedImages.length < accepted.length →
      (Page.handleDrop s accepted).globalError =
        some "You can upload up to 4 images.") ∧
    (Page.removeItem s imgId).uploadedImages.length ≤ s.uploadedImages.length ∧
    (Page.clearAll s).uploadedImages = [] ∧
    (Page.canSubmit s = true →
      (Page.analyzeImagesRun s uid aid t (.ok resp)).1.uploadedImages = []) ∧
    (Page.analyzeImagesRun s uid aid t outcome).1.uploadedImages.length ≤ 4 ∧
    (∀ call ∈ (Page.analyzeImagesRun s uid aid t outcome).2,
      1 ≤ call.2.length ∧ call.2.length ≤ 4) := by
  have hdrop : (Page.handleDrop s accepted).uploadedImages.length =
      s.uploadedImages.length + min (4 - s.uploadedImages.length) accepted.length := by
    simp [Page.handleDrop, List.length_take]
  refine ⟨hdrop, ?_, ?_, ?_, ?_, ?_, ?_, ?_⟩
  · rw [hdrop]; omega
  · intro hexcess
    simp [Page.handleDrop, hexcess]
  · simp only [Page.removeItem]
    exact List.length_filter_le _ _
  · rfl
  · intro hc
    simp [Page.analyzeImagesRun, hc]
  · cases hc : Page.canSubmit s with
    | false => simpa [Page.analyzeImagesRun, hc] using h4
    | true =>
        cases outcome with
        | ok resp' => simp [Page.analyzeImagesRun, hc]
        | error e => simpa [Page.analyzeImagesRun, hc, Page.startSubmit] using h4
  · intro call hcall
    cases hc : Page.canSubmit s with
    | false => simp [Page.analyzeImagesRun, hc] at hcall
    | true =>
        have hlen : 0 < s.uploadedImages.length := by
          have := hc
          simp only [Page.canSubmit, Bool.and_eq_true, decide_eq_true_eq] at this
          exact this.1.2
        have hcall' :
            call = (jsTrim s.question, s.uploadedImages.map fun u => u.preview) := by
          cases outcome with
          | ok resp' =>
              simp [Page.analyzeImagesRun, hc] at hcall
              exact hcall
          | error e =>
              simp [Page.analyzeImagesRun, hc] at hcall
              exact hcall
        subst hcall'
        simp only [List.length_map]
        exact ⟨hlen, h4⟩

/-- Witness for C9 at a concrete state: three staged images plus two
dropped files keep the list at four and set the warning banner, and the
single service call of a run carries between 1 and 4 images. -/
theorem composer_bounded_witness :
    (Page.handleDrop
      { messages := [], uploadedImages := [{ id := 1, preview := "a" },
          { id := 2, preview := "b" }, { id := 3, preview := "c" }],
        question := "q", submitting := false, globalError := none }
      [(4, "d"), (5, "e")]).uploadedImages.length = 4 ∧
    (Page.handleDrop
      { messages := [], uploadedImages := [{ id := 1, preview := "a" },
          { id := 2, preview := "b" }, { id := 3, preview := "c" }],
        question := "q", submitting := false, globalError := none }
      [(4, "d"), (5, "e")]).globalError = some "You can upload up to 4 images." ∧
    (∀ call ∈ (Page.analyzeImagesRun
      { messages := [], uploadedImages := [{ id := 1, preview := "a" },
          { id := 2, preview := "b" }, { id := 3, preview := "c" }],
        question := "q", submitting := false, globalError := none }
      8 9 2 (.ok [])).2, 1 ≤ call.2.length ∧ call.2.length ≤ 4) :=
  ⟨(composer_bounded
      { messages := [], uploadedImages := [{ id := 1, preview := "a" },
          { id := 2, preview := "b" }, { id := 3, preview := "c" }],
        question := "q", submitting := false, globalError := none }
      [(4, "d"), (5, "e")] 0 8 9 2 (.ok []) [] (by decide)).1,
   (composer_bounded
      { messages := [], uploadedImages := [{ id := 1, preview := "a" },
          { id := 2, preview := "b" }, { id := 3, preview := "c" }],
        question := "q", submitting := false, globalError := none }
      [(4, "d"), (5, "e")] 0 8 9 2 (.ok []) [] (by decide)).2.2.1 (by decide),
   (composer_bounded
      { messages := [], uploadedImages := [{ id := 1, preview := "a" },
          { id := 2, preview := "b" }, { id := 3, preview := "c" }],
        question := "q", submitting := false, globalError := none }
      [(4, "d"), (5, "e")] 0 8 9 2 (.ok []) [] (by decide)).2.2.2.2.2.2.2⟩

end VisionChat
